import Mathlib

/-!
# Catalog service: cache-consistency contract

Shallow embedding of the product-catalog service (`app.py`): a PostgreSQL
product table (the Store) fronted by a Redis cache.  Rows of the `products`
table carry `id SERIAL PRIMARY KEY, name, description, price DECIMAL(10,2),
stock INTEGER`.  Prices are `DECIMAL(10,2)` in the store, so they are embedded
as exact integer hundredths (cents); Python's `int` stock is embedded as `Int`
(the code places no sign restriction on it).  The Redis cache holds the
aggregate key `products:all` and one key `product:{id}` per identifier; a
`setex` stores a value together with its time-to-live (300 seconds in the
code).  Cached payloads are modelled as values (`json.loads` of what was
successfully stored).  `json.dumps` itself is modelled including its failure
mode: psycopg2 returns the `DECIMAL(10, 2)` price column as a Python
`Decimal`, which the standard json encoder rejects with `TypeError`, so the
dump of any row raises (surfaced as a 500) and only the empty listing
serializes.
-/

/-- Input payload of `Product` (pydantic model): no id, no validation beyond
types; in particular `stock : int` may be negative. Price in cents. -/
structure Product where
  name : String
  description : String
  price : Int
  stock : Int
deriving DecidableEq, Repr

/-- A persisted row / response (`ProductResponse`): the stored fields plus the
Store-assigned identifier. -/
structure ProductResponse where
  id : Nat
  name : String
  description : String
  price : Int
  stock : Int
deriving DecidableEq, Repr

/-- The `products` table: rows in insertion order plus the `SERIAL` counter
that assigns the next identifier. -/
structure DB where
  rows : List ProductResponse
  nextId : Nat
deriving DecidableEq, Repr

/-- The Redis cache restricted to the keys the service uses: the aggregate key
`products:all` and the per-identifier keys `product:{id}`.  Each entry stores
the cached value together with the time-to-live it was `setex`ed with. -/
structure Cache where
  allEntry : Option (List ProductResponse × Nat)
  prodEntries : List (Nat × ProductResponse × Nat)
deriving DecidableEq, Repr

/-- `r.get "product:{i}"`: value and ttl currently stored for identifier `i`. -/
def Cache.getProd (c : Cache) (i : Nat) : Option (ProductResponse × Nat) :=
  (c.prodEntries.find? (fun e => e.1 = i)).map (fun e => e.2)

/-- `r.setex "product:{i}" ttl v`: (re)bind the per-identifier key. -/
def Cache.setProd (c : Cache) (i : Nat) (v : ProductResponse) (ttl : Nat) : Cache :=
  { c with prodEntries := (i, v, ttl) :: c.prodEntries.filter (fun e => ¬ e.1 = i) }

/-- `r.delete "product:{i}"`. -/
def Cache.delProd (c : Cache) (i : Nat) : Cache :=
  { c with prodEntries := c.prodEntries.filter (fun e => ¬ e.1 = i) }

/-- `r.setex "products:all" ttl v`. -/
def Cache.setAll (c : Cache) (v : List ProductResponse) (ttl : Nat) : Cache :=
  { c with allEntry := some (v, ttl) }

/-- `r.delete "products:all"`. -/
def Cache.delAll (c : Cache) : Cache :=
  { c with allEntry := none }

/-- Whole service state: Store plus Cache. -/
structure St where
  db : DB
  cache : Cache
deriving DecidableEq, Repr

/-- `HTTPException(status_code, detail)`. -/
structure HTTPException where
  status : Nat
  detail : String
deriving DecidableEq, Repr

/-- The `HTTPException(404, "Product not found")` raised by Get/Update/Delete. -/
def notFound : HTTPException := ⟨404, "Product not found"⟩

/-- `ORDER BY id`: insert a row into an id-sorted list. -/
def insertById (x : ProductResponse) : List ProductResponse → List ProductResponse
  | [] => [x]
  | y :: ys => if x.id ≤ y.id then x :: y :: ys else y :: insertById x ys

/-- `SELECT * FROM products ORDER BY id`: the rows sorted by ascending id. -/
def sortById (l : List ProductResponse) : List ProductResponse :=
  l.foldr insertById []

/-- Unhandled `TypeError` raised by `json.dumps` on a `Decimal`, surfaced by
the framework as a 500 response. -/
def typeError : HTTPException :=
  ⟨500, "Object of type Decimal is not JSON serializable"⟩

/-- `json.dumps(dict(row))`: psycopg2 returns the `DECIMAL(10, 2)` price
column as a Python `Decimal`, which the standard json encoder cannot
serialize — the dump of a row always raises `TypeError`. -/
def dumpsProduct (_ : ProductResponse) : Except HTTPException String :=
  Except.error typeError

/-- `json.dumps([dict(p) for p in rows])`: succeeds only for the empty
listing; any row carries a `Decimal` price and raises `TypeError`. -/
def dumpsProductList (l : List ProductResponse) : Except HTTPException String :=
  match l with
  | [] => Except.ok "[]"
  | _ :: _ => Except.error typeError

/-- `create_product`: INSERT with the SERIAL-assigned id, RETURNING the new
row; then delete `products:all` from the cache. -/
def createProduct (p : Product) (s : St) : ProductResponse × St :=
  let row : ProductResponse :=
    ⟨s.db.nextId, p.name, p.description, p.price, p.stock⟩
  (row, ⟨⟨s.db.rows ++ [row], s.db.nextId + 1⟩, s.cache.delAll⟩)

/-- `list_products` body after a cache miss (or `use_cache=False`): ordered
SELECT, then `json.dumps` of the payload for `setex("products:all", 300, ...)`
— the dump raises `TypeError` whenever the table is non-empty. -/
def listFromDb (s : St) : Except HTTPException (List ProductResponse) × St :=
  let l := sortById s.db.rows
  match dumpsProductList l with
  | Except.error err => (Except.error err, s)
  | Except.ok _ => (Except.ok l, ⟨s.db, s.cache.setAll l 300⟩)

/-- `list_products(use_cache)`: serve `products:all` from the cache when
present, otherwise read the Store and try to repopulate the aggregate key. -/
def listProducts (useCache : Bool) (s : St) :
    Except HTTPException (List ProductResponse) × St :=
  if useCache then
    match s.cache.allEntry with
    | some (l, _) => (Except.ok l, s)
    | none => listFromDb s
  else listFromDb s

/-- `get_product(product_id)`: per-identifier cache key first; on miss,
SELECT by id — absent row raises 404; otherwise `json.dumps(product_dict)` is
evaluated for the `setex`, and it raises `TypeError` on the `Decimal` price
before the key is set or the row returned. -/
def getProduct (i : Nat) (s : St) : Except HTTPException ProductResponse × St :=
  match s.cache.getProd i with
  | some e => (Except.ok e.1, s)
  | none =>
    match s.db.rows.find? (fun r => r.id = i) with
    | none => (Except.error notFound, s)
    | some row =>
      match dumpsProduct row with
      | Except.error err => (Except.error err, s)
      | Except.ok _ => (Except.ok row, ⟨s.db, s.cache.setProd i row 300⟩)

/-- The row rewrite performed by `UPDATE products SET ... WHERE id = i`. -/
def applyUpdate (i : Nat) (p : Product) (r : ProductResponse) : ProductResponse :=
  if r.id = i then ⟨r.id, p.name, p.description, p.price, p.stock⟩ else r

/-- `update_product(product_id, product)`: single conditional UPDATE with
RETURNING (committed either way); `fetchone` of the returned rows decides the
404; on success delete `product:{id}` and `products:all` from the cache. -/
def updateProduct (i : Nat) (p : Product) (s : St) :
    Except HTTPException ProductResponse × St :=
  let rows' := s.db.rows.map (applyUpdate i p)
  match rows'.find? (fun r => r.id = i) with
  | some r =>
    (Except.ok r, ⟨⟨rows', s.db.nextId⟩, (s.cache.delProd i).delAll⟩)
  | none => (Except.error notFound, ⟨⟨rows', s.db.nextId⟩, s.cache⟩)

/-- `delete_product(product_id)`: DELETE WHERE id RETURNING id (committed
either way); `fetchone` decides the 404; on success delete both cache keys. -/
def deleteProduct (i : Nat) (s : St) : Except HTTPException String × St :=
  let deleted := s.db.rows.any (fun r => r.id = i)
  let rows' := s.db.rows.filter (fun r => ¬ r.id = i)
  if deleted then
    (Except.ok "Product deleted successfully", ⟨⟨rows', s.db.nextId⟩,
      (s.cache.delProd i).delAll⟩)
  else
    (Except.error notFound, ⟨⟨rows', s.db.nextId⟩, s.cache⟩)

/-- `/health` response body on success. -/
structure Health where
  status : String
  postgres : String
  redis : String
deriving DecidableEq, Repr

/-- `health_check`: probe PostgreSQL then Redis; a raised exception from
either (its message passed in as `dbErr` / `cacheErr`) is caught by the one
`except` clause and re-raised as a single `HTTPException(500, ...)`. -/
def healthCheck (dbErr cacheErr : Option String) : Except HTTPException Health :=
  match dbErr with
  | some e => Except.error ⟨500, "Health check failed: " ++ e⟩
  | none =>
    match cacheErr with
    | some e => Except.error ⟨500, "Health check failed: " ++ e⟩
    | none => Except.ok ⟨"healthy", "connected", "connected"⟩

/-- The service operations, for the reachable-state semantics. -/
inductive Op where
  | create (p : Product)
  | listOp (useCache : Bool)
  | get (i : Nat)
  | update (i : Nat) (p : Product)
  | delete (i : Nat)
deriving DecidableEq, Repr

/-- State transition of one operation (its response discarded). -/
def step (s : St) : Op → St
  | Op.create p => (createProduct p s).2
  | Op.listOp b => (listProducts b s).2
  | Op.get i => (getProduct i s).2
  | Op.update i p => (updateProduct i p s).2
  | Op.delete i => (deleteProduct i s).2

/-- Initial state: empty `products` table (SERIAL starts at 1), empty cache. -/
def initSt : St := ⟨⟨[], 1⟩, ⟨none, []⟩⟩

/-- Run a sequence of operations from the initial state. -/
def run (ops : List Op) : St := ops.foldl step initSt


/-- A cache transition that introduces no business value: every key either
keeps the value it had or has been deleted. -/
def cachePreserved (pre post : Cache) : Prop :=
  (post.allEntry = pre.allEntry ∨ post.allEntry = none) ∧
  ∀ i, post.getProd i = pre.getProd i ∨ post.getProd i = none

/-! ## Helper lemmas -/

theorem getProd_delAll (c : Cache) (i : Nat) : c.delAll.getProd i = c.getProd i := rfl

theorem allEntry_setProd (c : Cache) (i : Nat) (v : ProductResponse) (t : Nat) :
    (c.setProd i v t).allEntry = c.allEntry := rfl

theorem allEntry_delProd (c : Cache) (i : Nat) :
    (c.delProd i).allEntry = c.allEntry := rfl

theorem find?_filter_of_imp {α : Type} (p q : α → Bool) (l : List α)
    (h : ∀ a, p a = true → q a = true) :
    (l.filter q).find? p = l.find? p := by
  induction l with
  | nil => rfl
  | cons a l ih =>
    by_cases hq : q a = true
    · rw [List.filter_cons_of_pos hq, List.find?_cons, List.find?_cons]
      cases hpa : p a <;> simp [ih]
    · rw [List.filter_cons_of_neg hq, List.find?_cons]
      cases hpa : p a
      · exact ih
      · exact absurd (h a hpa) hq

theorem getProd_delProd (c : Cache) (i j : Nat) :
    (c.delProd i).getProd j = if j = i then none else c.getProd j := by
  unfold Cache.delProd Cache.getProd
  by_cases hji : j = i
  · subst hji
    rw [if_pos rfl]
    have : (c.prodEntries.filter fun e => ¬ e.1 = j).find? (fun e => e.1 = j) = none := by
      rw [List.find?_eq_none]
      intro x hx
      rw [List.mem_filter] at hx
      simpa using hx.2
    simp [this]
  · rw [if_neg hji]
    have : (c.prodEntries.filter fun e => ¬ e.1 = i).find? (fun e => e.1 = j) =
        c.prodEntries.find? (fun e => e.1 = j) := by
      apply find?_filter_of_imp
      intro a ha
      simp only [decide_eq_true_eq] at ha
      simp [ha, hji]
    rw [this]

theorem getProd_setProd (c : Cache) (i : Nat) (v : ProductResponse) (t : Nat) (j : Nat) :
    (c.setProd i v t).getProd j = if j = i then some (v, t) else c.getProd j := by
  unfold Cache.setProd Cache.getProd
  by_cases hji : j = i
  · subst hji
    simp [List.find?_cons]
  · rw [if_neg hji]
    have hne : (decide (i = j)) = false := by
      simp only [decide_eq_false_iff_not]
      exact fun h => hji h.symm
    have : (c.prodEntries.filter fun e => ¬ e.1 = i).find? (fun e => e.1 = j) =
        c.prodEntries.find? (fun e => e.1 = j) := by
      apply find?_filter_of_imp
      intro a ha
      simp only [decide_eq_true_eq] at ha
      simp [ha, hji]
    rw [List.find?_cons, hne, this]

theorem applyUpdate_id_eq (i : Nat) (p : Product) (r : ProductResponse) :
    (applyUpdate i p r).id = r.id := by
  unfold applyUpdate
  by_cases h : r.id = i <;> simp [h]

theorem find?_map_applyUpdate (i : Nat) (p : Product) (l : List ProductResponse)
    (r : ProductResponse)
    (h : (l.map (applyUpdate i p)).find? (fun x => x.id = i) = some r) :
    r = ⟨i, p.name, p.description, p.price, p.stock⟩ := by
  have hmem := List.mem_of_find?_eq_some h
  have hp := List.find?_some h
  simp only [decide_eq_true_eq] at hp
  rw [List.mem_map] at hmem
  obtain ⟨a, _, ha⟩ := hmem
  subst ha
  unfold applyUpdate at hp ⊢
  by_cases hai : a.id = i
  · simp [hai]
  · rw [if_neg hai] at hp
    exact absurd hp hai

theorem map_applyUpdate_of_no_match (i : Nat) (p : Product) (l : List ProductResponse)
    (h : l.find? (fun r => r.id = i) = none) :
    l.map (applyUpdate i p) = l := by
  rw [List.find?_eq_none] at h
  have : ∀ a ∈ l, applyUpdate i p a = id a := by
    intro a ha
    have := h a ha
    simp only [decide_eq_true_eq] at this
    unfold applyUpdate
    simp [this]
  rw [List.map_congr_left this, List.map_id]

theorem mem_insertById (x z : ProductResponse) (l : List ProductResponse) :
    z ∈ insertById x l ↔ z = x ∨ z ∈ l := by
  induction l with
  | nil => simp [insertById]
  | cons y ys ih =>
    rw [insertById]
    by_cases h : x.id ≤ y.id
    · rw [if_pos h]
      simp [or_assoc]
    · rw [if_neg h]
      simp only [List.mem_cons, ih]
      tauto

theorem pairwise_insertById (x : ProductResponse) (l : List ProductResponse)
    (h : List.Pairwise (fun a b => a.id ≤ b.id) l) :
    List.Pairwise (fun a b => a.id ≤ b.id) (insertById x l) := by
  induction l with
  | nil => simp [insertById]
  | cons y ys ih =>
    rw [List.pairwise_cons] at h
    rw [insertById]
    by_cases hxy : x.id ≤ y.id
    · rw [if_pos hxy]
      rw [List.pairwise_cons]
      refine ⟨?_, List.pairwise_cons.2 h⟩
      intro z hz
      rcases List.mem_cons.1 hz with rfl | hz
      · exact hxy
      · exact le_trans hxy (h.1 z hz)
    · rw [if_neg hxy]
      rw [List.pairwise_cons]
      constructor
      · intro z hz
        rcases (mem_insertById x z ys).1 hz with rfl | hz
        · exact Nat.le_of_not_le hxy
        · exact h.1 z hz
      · exact ih h.2

theorem pairwise_sortById (l : List ProductResponse) :
    List.Pairwise (fun a b => a.id ≤ b.id) (sortById l) := by
  induction l with
  | nil => simp [sortById]
  | cons a l ih => exact pairwise_insertById a (sortById l) ih


/-! ## Branch equations for the operations -/

theorem getProduct_hit (i : Nat) (s : St) (e : ProductResponse × Nat)
    (h : s.cache.getProd i = some e) :
    getProduct i s = (Except.ok e.1, s) := by
  simp only [getProduct]
  rw [h]

theorem getProduct_miss_absent (i : Nat) (s : St)
    (h1 : s.cache.getProd i = none)
    (h2 : s.db.rows.find? (fun r => r.id = i) = none) :
    getProduct i s = (Except.error notFound, s) := by
  simp only [getProduct]
  rw [h1, h2]

theorem getProduct_miss_found (i : Nat) (s : St) (row : ProductResponse)
    (h1 : s.cache.getProd i = none)
    (h2 : s.db.rows.find? (fun r => r.id = i) = some row) :
    getProduct i s = (Except.error typeError, s) := by
  simp only [getProduct]
  rw [h1, h2]
  exact rfl

theorem updateProduct_matched (i : Nat) (p : Product) (s : St) (r : ProductResponse)
    (h : (s.db.rows.map (applyUpdate i p)).find? (fun x => x.id = i) = some r) :
    updateProduct i p s = (Except.ok r,
      ⟨⟨s.db.rows.map (applyUpdate i p), s.db.nextId⟩, (s.cache.delProd i).delAll⟩) := by
  simp only [updateProduct]
  rw [h]

theorem updateProduct_unmatched (i : Nat) (p : Product) (s : St)
    (h : (s.db.rows.map (applyUpdate i p)).find? (fun x => x.id = i) = none) :
    updateProduct i p s = (Except.error notFound,
      ⟨⟨s.db.rows.map (applyUpdate i p), s.db.nextId⟩, s.cache⟩) := by
  simp only [updateProduct]
  rw [h]

theorem deleteProduct_matched (i : Nat) (s : St)
    (h : s.db.rows.any (fun r => r.id = i) = true) :
    deleteProduct i s = (Except.ok "Product deleted successfully",
      ⟨⟨s.db.rows.filter (fun r => ¬ r.id = i), s.db.nextId⟩,
        (s.cache.delProd i).delAll⟩) := by
  simp only [deleteProduct]
  rw [if_pos h]

theorem deleteProduct_unmatched (i : Nat) (s : St)
    (h : s.db.rows.any (fun r => r.id = i) = false) :
    deleteProduct i s = (Except.error notFound,
      ⟨⟨s.db.rows.filter (fun r => ¬ r.id = i), s.db.nextId⟩, s.cache⟩) := by
  simp only [deleteProduct]
  rw [if_neg (by simp [h])]

theorem listProducts_hit (s : St) (l : List ProductResponse) (t : Nat)
    (h : s.cache.allEntry = some (l, t)) :
    listProducts true s = (Except.ok l, s) := by
  simp only [listProducts, if_pos]
  rw [h]

theorem listProducts_miss (s : St) (h : s.cache.allEntry = none) :
    listProducts true s = listFromDb s := by
  simp only [listProducts, if_pos]
  rw [h]

theorem listProducts_nocache (s : St) :
    listProducts false s = listFromDb s := rfl


/-! ## Claims -/

/-- C1: code-bug evidence for "Update then Get returns the updated record".
Update(1) succeeds and deletes both cache keys, but the following Get(1)
misses the cache, finds the updated row, and raises `TypeError` in
`json.dumps` on the `Decimal` price before the `setex` and return — the
request 500s instead of returning the updated record. -/
theorem update_then_get_crashes :
    (updateProduct 1 ⟨"Updated", "Updated desc", 4000, 10⟩
        (run [Op.create ⟨"Original", "Original desc", 3000, 5⟩])).1 =
      Except.ok ⟨1, "Updated", "Updated desc", 4000, 10⟩ ∧
    (updateProduct 1 ⟨"Updated", "Updated desc", 4000, 10⟩
        (run [Op.create ⟨"Original", "Original desc", 3000, 5⟩])).2.cache =
      ⟨none, []⟩ ∧
    (getProduct 1 (updateProduct 1 ⟨"Updated", "Updated desc", 4000, 10⟩
        (run [Op.create ⟨"Original", "Original desc", 3000, 5⟩])).2).1 =
      Except.error typeError :=
  ⟨rfl, rfl, rfl⟩

/-- C2: after a successful Delete of an identifier, Get on that identifier
fails with NotFound even if the record was cached just before: Delete removed
the per-identifier key and the aggregate listing key, so Get misses the cache,
misses the Store, and raises the 404. -/
theorem delete_then_get_absent (s s' : St) (i : Nat) (m : String)
    (h : deleteProduct i s = (Except.ok m, s')) :
    s'.cache.getProd i = none ∧
    s'.cache.allEntry = none ∧
    (getProduct i s').1 = Except.error notFound := by
  cases hd : s.db.rows.any (fun r => r.id = i) with
  | false =>
    rw [deleteProduct_unmatched i s hd] at h
    exact absurd (congrArg Prod.fst h) (by simp)
  | true =>
    rw [deleteProduct_matched i s hd] at h
    have hs : s' = ⟨⟨s.db.rows.filter (fun r => ¬ r.id = i), s.db.nextId⟩,
        (s.cache.delProd i).delAll⟩ := (congrArg Prod.snd h).symm
    subst hs
    have hcache : ((s.cache.delProd i).delAll).getProd i = none := by
      rw [getProd_delAll, getProd_delProd, if_pos rfl]
    have hrows : (s.db.rows.filter (fun r => ¬ r.id = i)).find?
        (fun r => r.id = i) = none := by
      rw [List.find?_eq_none]
      intro x hx
      rw [List.mem_filter] at hx
      simpa using hx.2
    refine ⟨hcache, rfl, ?_⟩
    rw [getProduct_miss_absent i _ hcache hrows]

/-- C2 witness: deleting identifier 1 while it sits in the cache makes the
following Get fail with the 404. -/
theorem delete_then_get_absent_witness :
    (getProduct 1 (deleteProduct 1
      ⟨⟨[⟨1, "To Be Deleted", "Delete test", 2000, 1⟩], 2⟩,
        ⟨none, [(1, ⟨1, "To Be Deleted", "Delete test", 2000, 1⟩, 300)]⟩⟩).2).1 =
    Except.error notFound := by
  have h := delete_then_get_absent
    ⟨⟨[⟨1, "To Be Deleted", "Delete test", 2000, 1⟩], 2⟩,
      ⟨none, [(1, ⟨1, "To Be Deleted", "Delete test", 2000, 1⟩, 300)]⟩⟩
    (deleteProduct 1
      ⟨⟨[⟨1, "To Be Deleted", "Delete test", 2000, 1⟩], 2⟩,
        ⟨none, [(1, ⟨1, "To Be Deleted", "Delete test", 2000, 1⟩, 300)]⟩⟩).2
    1 "Product deleted successfully" rfl
  exact h.2.2

/-- C3: code-bug evidence for the populate-and-return half of the Get
contract. With an empty cache and identifier 1 in the Store, Get does not
populate the per-identifier key and return the record: `json.dumps` raises
`TypeError` on the `Decimal` price before the `setex`, so the request 500s
and the key stays empty. -/
theorem get_miss_found_crashes :
    (getProduct 1 ⟨⟨[⟨1, "Smartphone", "Latest model", 79999, 20⟩], 2⟩,
        ⟨none, []⟩⟩).1 = Except.error typeError ∧
    (getProduct 1 ⟨⟨[⟨1, "Smartphone", "Latest model", 79999, 20⟩], 2⟩,
        ⟨none, []⟩⟩).2.cache.getProd 1 = none :=
  ⟨rfl, rfl⟩

/-- C4: Update on an identifier with no matching row fails with NotFound and
leaves the whole state — in particular the Store contents — unchanged. -/
theorem update_missing_notFound (s : St) (i : Nat) (p : Product)
    (h : s.db.rows.find? (fun r => r.id = i) = none) :
    updateProduct i p s = (Except.error notFound, s) := by
  have hm := map_applyUpdate_of_no_match i p s.db.rows h
  have hu := updateProduct_unmatched i p s (by rw [hm]; exact h)
  rw [hu, hm]

/-- C4 witness: updating the absent identifier 1 in the initial state returns
the 404 and leaves the state untouched. -/
theorem update_missing_notFound_witness :
    updateProduct 1 ⟨"New Name", "New description", 15000, 10⟩ initSt =
      (Except.error notFound, initSt) :=
  update_missing_notFound initSt 1 ⟨"New Name", "New description", 15000, 10⟩ rfl

/-- C5: code-bug evidence for "List always returns id-ordered records".
After two Creates the aggregate key is absent, so List reads the Store — and
crashes in `json.dumps` of the non-empty ordered payload with a 500 instead
of returning the records. -/
theorem list_nonempty_crashes :
    (listProducts true (run [Op.create ⟨"Product 1", "Desc 1", 1000, 5⟩,
        Op.create ⟨"Product 2", "Desc 2", 2000, 3⟩])).1 =
      Except.error typeError :=
  rfl

/-- C6: the write path never writes a business value into the cache: after
Create, Update or Delete every cache key either still holds its old value or
has been deleted. -/
theorem write_path_only_deletes (s : St) (p q : Product) (i j : Nat) :
    cachePreserved s.cache (createProduct p s).2.cache ∧
    cachePreserved s.cache (updateProduct i q s).2.cache ∧
    cachePreserved s.cache (deleteProduct j s).2.cache := by
  refine ⟨?_, ?_, ?_⟩
  · exact ⟨Or.inr rfl, fun k => Or.inl (getProd_delAll s.cache k)⟩
  · cases hf : (s.db.rows.map (applyUpdate i q)).find? (fun x => x.id = i) with
    | some r =>
      rw [updateProduct_matched i q s r hf]
      refine ⟨Or.inr rfl, fun k => ?_⟩
      rw [getProd_delAll, getProd_delProd]
      by_cases hk : k = i
      · rw [if_pos hk]; exact Or.inr rfl
      · rw [if_neg hk]; exact Or.inl rfl
    | none =>
      rw [updateProduct_unmatched i q s hf]
      exact ⟨Or.inl rfl, fun k => Or.inl rfl⟩
  · cases hd : s.db.rows.any (fun r => r.id = j) with
    | true =>
      rw [deleteProduct_matched j s hd]
      refine ⟨Or.inr rfl, fun k => ?_⟩
      rw [getProd_delAll, getProd_delProd]
      by_cases hk : k = j
      · rw [if_pos hk]; exact Or.inr rfl
      · rw [if_neg hk]; exact Or.inl rfl
    | false =>
      rw [deleteProduct_unmatched j s hd]
      exact ⟨Or.inl rfl, fun k => Or.inl rfl⟩

/-- C7 counterexample: the pydantic model and the `stock INTEGER` column do
not constrain the sign of the stock, so one Create from the initial state
stores a record with stock -1. -/
theorem negative_stock_stored :
    ((createProduct ⟨"Broken", "negative stock", 100, -1⟩ initSt).2).db.rows.any
      (fun r => r.stock < 0) = true := by decide

/-- C7 (amended): Create and Update store the submitted stock quantity
verbatim — no operation validates non-negativity, so a negative submitted
stock is stored as such. -/
theorem stock_stored_verbatim (s : St) (p : Product) :
    (createProduct p s).1.stock = p.stock ∧
    (createProduct p s).1 ∈ (createProduct p s).2.db.rows ∧
    (∀ i r s', updateProduct i p s = (Except.ok r, s') →
      r.stock = p.stock ∧ r ∈ s'.db.rows) := by
  refine ⟨rfl, ?_, ?_⟩
  · simp only [createProduct]
    exact List.mem_append.2 (Or.inr (List.mem_singleton.2 rfl))
  · intro i r s' h
    cases hf : (s.db.rows.map (applyUpdate i p)).find? (fun x => x.id = i) with
    | none =>
      rw [updateProduct_unmatched i p s hf] at h
      exact absurd (congrArg Prod.fst h) (by simp)
    | some r0 =>
      rw [updateProduct_matched i p s r0 hf] at h
      have h1 : Except.ok (ε := HTTPException) r0 = Except.ok r := congrArg Prod.fst h
      have hr : r0 = r := by injection h1
      subst hr
      have hs : s' = ⟨⟨s.db.rows.map (applyUpdate i p), s.db.nextId⟩,
          (s.cache.delProd i).delAll⟩ := (congrArg Prod.snd h).symm
      subst hs
      have hfields := find?_map_applyUpdate i p s.db.rows r0 hf
      exact ⟨by rw [hfields], List.mem_of_find?_eq_some hf⟩

/-- C7 (amended) witness: an update submitting stock -7 stores a row whose
stock is the submitted -7. -/
theorem stock_stored_verbatim_witness :
    ((⟨1, "n", "d", 100, -7⟩ : ProductResponse).stock =
        (⟨"n", "d", 100, -7⟩ : Product).stock) ∧
    (⟨1, "n", "d", 100, -7⟩ : ProductResponse) ∈
      (updateProduct 1 ⟨"n", "d", 100, -7⟩
        ⟨⟨[⟨1, "a", "b", 100, 5⟩], 2⟩, ⟨none, []⟩⟩).2.db.rows :=
  (stock_stored_verbatim ⟨⟨[⟨1, "a", "b", 100, 5⟩], 2⟩, ⟨none, []⟩⟩
    ⟨"n", "d", 100, -7⟩).2.2 1 ⟨1, "n", "d", 100, -7⟩
    (updateProduct 1 ⟨"n", "d", 100, -7⟩
      ⟨⟨[⟨1, "a", "b", 100, 5⟩], 2⟩, ⟨none, []⟩⟩).2 rfl

/-- C8: code-bug evidence for the Create-then-Get round-trip. Create echoes
the Laptop record (two-decimal price 1299.99 as 129999 hundredths), but the
round-trip never completes: the following Get raises `TypeError` in
`json.dumps` on the `Decimal` price and 500s instead of returning the
record. -/
theorem create_then_get_crashes :
    (createProduct ⟨"Laptop", "Gaming laptop", 129999, 10⟩ initSt).1 =
      ⟨1, "Laptop", "Gaming laptop", 129999, 10⟩ ∧
    (getProduct (createProduct ⟨"Laptop", "Gaming laptop", 129999, 10⟩
        initSt).1.id
      (createProduct ⟨"Laptop", "Gaming laptop", 129999, 10⟩ initSt).2).1 =
      Except.error typeError :=
  ⟨rfl, rfl⟩

/-- C9 counterexample: the health check does not report a ternary status — a
Store failure and a Cache failure produce the identical single aggregated 500
outcome, so only two observable statuses exist, not three. -/
theorem health_not_ternary :
    healthCheck (some "connection refused") none =
      healthCheck none (some "connection refused") ∧
    healthCheck (some "connection refused") none =
      Except.error ⟨500, "Health check failed: connection refused"⟩ ∧
    healthCheck none none = Except.ok ⟨"healthy", "connected", "connected"⟩ :=
  ⟨rfl, rfl, rfl⟩

/-- C9 (amended): the health check reports a binary outcome — the healthy
body exactly when both dependencies respond, and otherwise a single
aggregated 500 failure that does not distinguish which dependency failed. -/
theorem health_binary_aggregated (dbErr cacheErr : Option String) :
    (healthCheck dbErr cacheErr =
        Except.ok ⟨"healthy", "connected", "connected"⟩ ↔
      dbErr = none ∧ cacheErr = none) ∧
    (∀ e, healthCheck dbErr cacheErr = Except.error e → e.status = 500) ∧
    (∀ m, healthCheck (some m) none = healthCheck none (some m)) := by
  refine ⟨?_, ?_, fun m => rfl⟩
  · cases dbErr with
    | some e => simp [healthCheck]
    | none =>
      cases cacheErr with
      | some e => simp [healthCheck]
      | none => simp [healthCheck]
  · intro e he
    cases dbErr with
    | some d =>
      simp only [healthCheck, Except.error.injEq] at he
      rw [← he]
    | none =>
      cases cacheErr with
      | some c =>
        simp only [healthCheck, Except.error.injEq] at he
        rw [← he]
      | none => simp [healthCheck] at he

/-- C9 (amended) witness: both dependencies up gives the healthy body, and a
Store failure surfaces as the aggregated 500. -/
theorem health_binary_aggregated_witness :
    healthCheck none none = Except.ok ⟨"healthy", "connected", "connected"⟩ ∧
    (⟨500, "Health check failed: x"⟩ : HTTPException).status = 500 :=
  ⟨(health_binary_aggregated none none).1.2 ⟨rfl, rfl⟩,
   (health_binary_aggregated (some "x") none).2.1
     ⟨500, "Health check failed: x"⟩ rfl⟩

/-- C10: when Update or Delete fails with NotFound, the cache is left fully
unchanged — neither the per-identifier key nor the aggregate listing key is
deleted, because invalidation happens only on the success path. -/
theorem write_notFound_cache_untouched (s : St) (i : Nat) (p : Product) :
    (∀ e s1, updateProduct i p s = (Except.error e, s1) →
      e = notFound ∧ s1.cache = s.cache) ∧
    (∀ e s2, deleteProduct i s = (Except.error e, s2) →
      e = notFound ∧ s2.cache = s.cache) := by
  constructor
  · intro e s1 h
    cases hf : (s.db.rows.map (applyUpdate i p)).find? (fun x => x.id = i) with
    | some r =>
      rw [updateProduct_matched i p s r hf] at h
      exact absurd (congrArg Prod.fst h) (by simp)
    | none =>
      rw [updateProduct_unmatched i p s hf] at h
      have he : Except.error (α := ProductResponse) notFound = Except.error e :=
        congrArg Prod.fst h
      have hs : s1 = ⟨⟨s.db.rows.map (applyUpdate i p), s.db.nextId⟩, s.cache⟩ :=
        (congrArg Prod.snd h).symm
      subst hs
      refine ⟨?_, rfl⟩
      injection he with he2
      exact he2.symm
  · intro e s2 h
    cases hd : s.db.rows.any (fun r => r.id = i) with
    | true =>
      rw [deleteProduct_matched i s hd] at h
      exact absurd (congrArg Prod.fst h) (by simp)
    | false =>
      rw [deleteProduct_unmatched i s hd] at h
      have he : Except.error (α := String) notFound = Except.error e :=
        congrArg Prod.fst h
      have hs : s2 = ⟨⟨s.db.rows.filter (fun r => ¬ r.id = i), s.db.nextId⟩,
          s.cache⟩ := (congrArg Prod.snd h).symm
      subst hs
      refine ⟨?_, rfl⟩
      injection he with he2
      exact he2.symm

/-- C10 witness: failing Update and Delete on the absent identifier 1 leave
the initial cache exactly as it was. -/
theorem write_notFound_cache_untouched_witness :
    (updateProduct 1 ⟨"x", "y", 100, 1⟩ initSt).2.cache = initSt.cache ∧
    (deleteProduct 1 initSt).2.cache = initSt.cache :=
  ⟨((write_notFound_cache_untouched initSt 1 ⟨"x", "y", 100, 1⟩).1 notFound
      (updateProduct 1 ⟨"x", "y", 100, 1⟩ initSt).2 rfl).2,
   ((write_notFound_cache_untouched initSt 1 ⟨"x", "y", 100, 1⟩).2 notFound
      (deleteProduct 1 initSt).2 rfl).2⟩
